import Mathlib

/-!
# ozone-wayland: the `WaylandWindow` state machine

A shallow embedding of `src/wayland/window.cc`.  A window is a record of the
five data members of `WaylandWindow`; every member function becomes a function
from the window and the surrounding process state (`World`) to an `Outcome`.
The process state carries the display singleton, an allocation counter standing
for the heap, and the ordered log of every call that leaves `window.cc`
(requests to the shell surface, the rendering context, the display, the input
device and the raw surface).

Pointers are `Option`s; dereferencing a null pointer and a failed `DCHECK` stop
the run with a `Fault` (assertions are taken as enabled), and the `Outcome`
keeps the state reached at that point.
-/

namespace ozonewayland

/-- Modelled from the spec: the enumeration `WaylandWindow::ShellType` is declared in
`window.h`, which is not among the sources.  `window.cc` names `None`, `TOPLEVEL`,
`POPUP` and `FULLSCREEN`; the fifth presentation mode is the one the data model lists. -/
inductive ShellType
  | None
  | TOPLEVEL
  | POPUP
  | FULLSCREEN
  | MAXIMIZED
  deriving DecidableEq, Repr

/-- Modelled from the spec: `gfx::Rect` (x, y, width, height) belongs to the gfx
library, which is not among the sources; it is a plain value record that stores the
four components it is built from. -/
structure Rect where
  x : Nat
  y : Nat
  width : Nat
  height : Nat
  deriving DecidableEq, Repr

/-- Modelled from the spec: `WaylandShellSurface` (`shell_surface.h`, not among the
sources) wraps exactly one drawing surface, created together with it.  `addr` is the
address of the object, `surface_` the `wl_surface` reached by `Surface()->wlSurface()`,
`window` the handle of the window passed to the constructor. -/
structure WaylandShellSurface where
  addr : Nat
  surface_ : Nat
  window : Nat
  deriving DecidableEq, Repr

/-- Modelled from the spec: `EGLWindow` (`egl/egl_window.h`, not among the sources) is
the accelerated rendering context, built over a `wl_surface` with a width and a height. -/
structure EGLWindow where
  addr : Nat
  surface : Nat
  width : Nat
  height : Nat
  deriving DecidableEq, Repr

/-- Modelled from the spec: `WaylandInputDevice` (`input_device.h`, not among the
sources) holds the grab-window association set by `SetGrabWindowHandle`. -/
structure WaylandInputDevice where
  grab_window_handle_ : Nat
  grab_button_ : Nat
  deriving DecidableEq, Repr

/-- The part of `WaylandDisplay` (`display.h`) that `window.cc` reads: `primary_input_`,
returned by `PrimaryInput()`, null when no input device was registered. -/
structure WaylandDisplay where
  primary_input_ : Option WaylandInputDevice
  deriving DecidableEq, Repr

/-- Every call that leaves `window.cc`, in the order it is made. -/
inductive Effect
  /-- The call `new WaylandShellSurface(this)`. -/
  | NewShellSurface (shell : WaylandShellSurface)
  /-- The call `wl_surface_set_user_data(surface, data)`; `none` is the null pointer. -/
  | SetUserData (surface : Nat) (data : Option Nat)
  /-- The call `input->SetGrabWindowHandle(handle, button)`. -/
  | SetGrabWindowHandle (handle : Nat) (button : Nat)
  /-- The request `shell_surface_->UpdateShellSurface(type, parent, x, y)`. -/
  | UpdateShellSurface (shell : Nat) (type : ShellType)
      (parent : Option WaylandShellSurface) (x : Nat) (y : Nat)
  /-- The request `shell_surface_->SetWindowTitle(title)`. -/
  | SetWindowTitle (shell : Nat) (title : String)
  /-- The request `shell_surface_->Maximize()`. -/
  | Maximize (shell : Nat)
  /-- The report `NOTIMPLEMENTED()`. -/
  | NotImplemented
  /-- The message `LOG(ERROR) << msg`. -/
  | LogError (msg : String)
  /-- The call `new EGLWindow(surface, width, height)`. -/
  | NewEGLWindow (egl : EGLWindow)
  /-- The request `window_->Resize(surface, width, height)`. -/
  | ResizeEGLWindow (egl : Nat) (surface : Nat) (width : Nat) (height : Nat)
  /-- The call `display->FlushDisplay()`. -/
  | FlushDisplay
  /-- The statement `delete window_` on a non-null pointer. -/
  | DeleteEGLWindow (egl : Nat)
  /-- The statement `delete shell_surface_` on a non-null pointer. -/
  | DeleteShellSurface (shell : Nat)
  deriving DecidableEq, Repr

/-- The process state around a window: the display singleton
(`WaylandDisplay::GetInstance()`, which exists for as long as windows do, since the
display creates and owns them), the next free object address, and the log of effects,
oldest first. -/
structure World where
  display : WaylandDisplay
  next_ : Nat
  log : List Effect
  deriving DecidableEq, Repr

/-- Append one effect to the log. -/
def World.emit (env : World) (e : Effect) : World :=
  { env with log := env.log ++ [e] }

/-- The data members of `WaylandWindow`. -/
structure WaylandWindow where
  shell_surface_ : Option WaylandShellSurface
  window_ : Option EGLWindow
  type_ : ShellType
  handle_ : Nat
  allocation_ : Rect
  deriving DecidableEq, Repr

/-- Why a run stopped: a failed `DCHECK`, or a dereference of a null pointer.
Modelled from the spec: the `DCHECK` macro (`base/logging.h`, not among the sources)
rejects the call when its condition is false (a precondition violation). -/
inductive Fault
  | DCheck
  | NullDeref
  deriving DecidableEq, Repr

/-- The result of a member function: it returned (`ok`), or the run stopped with a
fault; both keep the window and the world as they were at that point. -/
inductive Outcome
  | ok (self : WaylandWindow) (env : World)
  | fault (f : Fault) (self : WaylandWindow) (env : World)
  deriving DecidableEq, Repr

/-- Sequencing: continue with `k` when the first part returned. -/
def Outcome.andThen : Outcome → (WaylandWindow → World → Outcome) → Outcome
  | Outcome.ok self env, k => k self env
  | Outcome.fault f self env, _ => Outcome.fault f self env

/-- Embeds `WaylandWindow::WaylandWindow(unsigned handle)`, lines 17-22. -/
def WaylandWindow.ctor (handle : Nat) : WaylandWindow :=
  { shell_surface_ := none
    window_ := none
    type_ := ShellType.None
    handle_ := handle
    allocation_ := { x := 0, y := 0, width := 1, height := 1 } }

/-- Embeds `WaylandWindow::GetSurface`, lines 104-107: `DCHECK(shell_surface_)`, then the
`wl_surface` of the shell surface. -/
def WaylandWindow.GetSurface (self : WaylandWindow) : Except Fault Nat :=
  match self.shell_surface_ with
  | none => Except.error Fault.DCheck
  | some s => Except.ok s.surface_

/-- The allocation `new WaylandShellSurface(this)`: a fresh shell surface and its drawing surface. -/
def World.newShellSurface (env : World) (handle : Nat) : WaylandShellSurface × World :=
  let s : WaylandShellSurface := { addr := env.next_, surface_ := env.next_ + 1, window := handle }
  (s, { env with next_ := env.next_ + 2, log := env.log ++ [Effect.NewShellSurface s] })

/-- The call `wl_surface_set_user_data(GetSurface(), data)`. -/
def WaylandWindow.setUserData (self : WaylandWindow) (env : World) (data : Option Nat) :
    Outcome :=
  match self.GetSurface with
  | Except.error f => Outcome.fault f self env
  | Except.ok surface => Outcome.ok self (env.emit (Effect.SetUserData surface data))

/-- A call `shell_surface_->m(...)` whose only effect is the logged request `req`:
a null `shell_surface_` is a fault. -/
def WaylandWindow.callShell (self : WaylandWindow) (env : World) (req : Nat → Effect) :
    Outcome :=
  match self.shell_surface_ with
  | none => Outcome.fault Fault.NullDeref self env
  | some s => Outcome.ok self (env.emit (req s.addr))

/-- Embeds `WaylandWindow::SetShellAttributes(ShellType type)`, lines 30-41. -/
def WaylandWindow.SetShellAttributes (self : WaylandWindow) (env : World) (type : ShellType) :
    Outcome :=
  if self.type_ = type then Outcome.ok self env
  else
    (match self.shell_surface_ with
      | some _ => Outcome.ok self env
      | none =>
        let (s, env1) := env.newShellSurface self.handle_
        WaylandWindow.setUserData { self with shell_surface_ := some s } env1
          (some self.handle_)).andThen fun self1 env1 =>
    let self2 := { self1 with type_ := type }
    self2.callShell env1 fun a => Effect.UpdateShellSurface a self2.type_ none 0 0

/-- Modelled from the spec: `WaylandInputDevice::SetGrabWindowHandle` stores the grab
window (and button) on the device. -/
def WaylandInputDevice.SetGrabWindowHandle (_input : WaylandInputDevice) (handle : Nat)
    (button : Nat) : WaylandInputDevice :=
  { grab_window_handle_ := handle, grab_button_ := button }

/-- Lines 52-53: `input = GetInstance()->PrimaryInput(); input->SetGrabWindowHandle(handle_, 0)`.
The pointer is dereferenced unguarded. -/
def WaylandWindow.grabPrimaryInput (self : WaylandWindow) (env : World) : Outcome :=
  match env.display.primary_input_ with
  | none => Outcome.fault Fault.NullDeref self env
  | some input =>
    Outcome.ok self
      { env with
        display := { primary_input_ := some (input.SetGrabWindowHandle self.handle_ 0) }
        log := env.log ++ [Effect.SetGrabWindowHandle self.handle_ 0] }

/-- Embeds `WaylandWindow::SetShellAttributes(ShellType, WaylandShellSurface*, unsigned, unsigned)`,
lines 43-60 (the popup form; C++ overloads it on the argument list). -/
def WaylandWindow.SetShellAttributesPopup (self : WaylandWindow) (env : World)
    (type : ShellType) (shell_parent : Option WaylandShellSurface) (x : Nat) (y : Nat) :
    Outcome :=
  if ¬ (shell_parent.isSome = true ∧ type = ShellType.POPUP) then
    Outcome.fault Fault.DCheck self env
  else
    (match self.shell_surface_ with
      | some _ => Outcome.ok self env
      | none =>
        let (s, env1) := env.newShellSurface self.handle_
        (WaylandWindow.setUserData { self with shell_surface_ := some s } env1
          (some self.handle_)).andThen fun self1 env2 =>
        self1.grabPrimaryInput env2).andThen fun self1 env1 =>
    let self2 := { self1 with type_ := type }
    self2.callShell env1 fun a => Effect.UpdateShellSurface a self2.type_ shell_parent x y

/-- Embeds `WaylandWindow::SetWindowTitle`, lines 62-64. -/
def WaylandWindow.SetWindowTitle (self : WaylandWindow) (env : World) (title : String) :
    Outcome :=
  self.callShell env fun a => Effect.SetWindowTitle a title

/-- Embeds `WaylandWindow::Maximize`, lines 66-69. -/
def WaylandWindow.Maximize (self : WaylandWindow) (env : World) : Outcome :=
  if self.type_ ≠ ShellType.FULLSCREEN then
    self.callShell env fun a => Effect.Maximize a
  else Outcome.ok self env

/-- Embeds `WaylandWindow::Minimize`, lines 71-73. -/
def WaylandWindow.Minimize (self : WaylandWindow) (env : World) : Outcome :=
  Outcome.ok self (env.emit Effect.NotImplemented)

/-- Embeds `WaylandWindow::Restore`, lines 75-80. -/
def WaylandWindow.Restore (self : WaylandWindow) (env : World) : Outcome :=
  if self.type_ ≠ ShellType.FULLSCREEN then
    self.callShell env fun a => Effect.UpdateShellSurface a self.type_ none 0 0
  else Outcome.ok self env

/-- Embeds `WaylandWindow::SetFullscreen`, lines 82-85. -/
def WaylandWindow.SetFullscreen (self : WaylandWindow) (env : World) : Outcome :=
  if self.type_ ≠ ShellType.FULLSCREEN then
    self.callShell env fun a => Effect.UpdateShellSurface a ShellType.FULLSCREEN none 0 0
  else Outcome.ok self env

/-- Embeds `WaylandWindow::RealizeAcceleratedWidget`, lines 87-97. -/
def WaylandWindow.RealizeAcceleratedWidget (self : WaylandWindow) (env : World) : Outcome :=
  (match self.shell_surface_ with
    | some _ => Outcome.ok self env
    | none =>
      self.SetShellAttributes
        (env.emit (Effect.LogError "Shell type not set. Setting it to TopLevel"))
        ShellType.TOPLEVEL).andThen fun self1 env1 =>
  match self1.window_ with
  | some _ => Outcome.ok self1 env1
  | none =>
    match self1.shell_surface_ with
    | none => Outcome.fault Fault.NullDeref self1 env1
    | some s =>
      let egl : EGLWindow :=
        { addr := env1.next_, surface := s.surface_
          width := self1.allocation_.width, height := self1.allocation_.height }
      Outcome.ok { self1 with window_ := some egl }
        { env1 with next_ := env1.next_ + 1, log := env1.log ++ [Effect.NewEGLWindow egl] }

/-- Embeds `WaylandWindow::Resize`, lines 109-121.  `EGLWindow::Resize` is modelled from the
spec: the rendering context takes the new size.  `DCHECK(display)` holds, the display
being part of the world. -/
def WaylandWindow.Resize (self : WaylandWindow) (env : World) (width : Nat) (height : Nat) :
    Outcome :=
  if self.allocation_.width = width ∧ self.allocation_.height = height then
    Outcome.ok self env
  else
    let self1 :=
      { self with
        allocation_ :=
          { x := self.allocation_.x, y := self.allocation_.y, width := width, height := height } }
    match self1.shell_surface_, self1.window_ with
    | some s, some egl =>
      Outcome.ok { self1 with window_ := some { egl with width := width, height := height } }
        ((env.emit (Effect.ResizeEGLWindow egl.addr s.surface_ width height)).emit
          Effect.FlushDisplay)
    | _, _ => Outcome.ok self1 env

/-- The result of destroying a window: the world afterwards, or the fault and the
world at the point the run stopped. -/
inductive Destroyed
  | ok (env : World)
  | fault (f : Fault) (env : World)
  deriving DecidableEq, Repr

/-- The statement `delete window_`: nothing for a null pointer. -/
def World.deleteEGLWindow (env : World) : Option EGLWindow → World
  | none => env
  | some egl => env.emit (Effect.DeleteEGLWindow egl.addr)

/-- The statement `delete shell_surface_`: nothing for a null pointer. -/
def World.deleteShellSurface (env : World) : Option WaylandShellSurface → World
  | none => env
  | some s => env.emit (Effect.DeleteShellSurface s.addr)

/-- Embeds `WaylandWindow::~WaylandWindow`, lines 24-28. -/
def WaylandWindow.dtor (self : WaylandWindow) (env : World) : Destroyed :=
  match self.setUserData env none with
  | Outcome.fault f _ env1 => Destroyed.fault f env1
  | Outcome.ok self1 env1 =>
    Destroyed.ok ((env1.deleteEGLWindow self1.window_).deleteShellSurface self1.shell_surface_)

/-- The public operations of a window, with their arguments. -/
inductive Op
  | SetShellAttributes (type : ShellType)
  | SetShellAttributesPopup (type : ShellType) (shell_parent : Option WaylandShellSurface)
      (x : Nat) (y : Nat)
  | SetWindowTitle (title : String)
  | Maximize
  | Minimize
  | Restore
  | SetFullscreen
  | RealizeAcceleratedWidget
  | Resize (width : Nat) (height : Nat)
  deriving DecidableEq, Repr

/-- Run one operation. -/
def Op.run (self : WaylandWindow) (env : World) : Op → Outcome
  | Op.SetShellAttributes type => self.SetShellAttributes env type
  | Op.SetShellAttributesPopup type p x y => self.SetShellAttributesPopup env type p x y
  | Op.SetWindowTitle title => self.SetWindowTitle env title
  | Op.Maximize => self.Maximize env
  | Op.Minimize => self.Minimize env
  | Op.Restore => self.Restore env
  | Op.SetFullscreen => self.SetFullscreen env
  | Op.RealizeAcceleratedWidget => self.RealizeAcceleratedWidget env
  | Op.Resize width height => self.Resize env width height

/-- The window states reachable from a freshly constructed window by operations that
returned.  The world may be any world at each step: other windows and the event
thread act on it in between. -/
inductive Reachable : WaylandWindow → Prop
  | fresh (handle : Nat) : Reachable (WaylandWindow.ctor handle)
  | step (op : Op) (self : WaylandWindow) (env : World) (self1 : WaylandWindow) (env1 : World) :
      Reachable self → op.run self env = Outcome.ok self1 env1 → Reachable self1

/-- A window holding a shell surface in mode `TOPLEVEL`, as left by
`SetShellAttributes(TOPLEVEL)` on a fresh window with handle 7. -/
def sampleShell : WaylandShellSurface := { addr := 0, surface_ := 1, window := 7 }

/-- A top-level window with handle 7 owning `sampleShell`. -/
def sampleWindow : WaylandWindow :=
  { shell_surface_ := some sampleShell
    window_ := none
    type_ := ShellType.TOPLEVEL
    handle_ := 7
    allocation_ := { x := 0, y := 0, width := 1, height := 1 } }

/-- A world with one input device, nothing logged yet. -/
def sampleWorld : World :=
  { display := { primary_input_ := some { grab_window_handle_ := 0, grab_button_ := 0 } }
    next_ := 2
    log := [] }

/-- A world without any input device, nothing logged yet. -/
def bareWorld : World :=
  { display := { primary_input_ := none }, next_ := 0, log := [] }

/-- The sample window in mode `POPUP`. -/
def samplePopup : WaylandWindow := { sampleWindow with type_ := ShellType.POPUP }

/-- A shell surface of another window, used as a popup parent. -/
def sampleParent : WaylandShellSurface := { addr := 40, surface_ := 41, window := 3 }

/-- A realized top-level window: shell surface and rendering context both present. -/
def sampleRealized : WaylandWindow :=
  { sampleWindow with window_ := some { addr := 2, surface := 1, width := 1, height := 1 } }

/-- Ownership shape of a window: without a shell surface the mode is still None and
there is no rendering context. -/
def WaylandWindow.Bound (self : WaylandWindow) : Prop :=
  self.shell_surface_ = none → self.type_ = ShellType.None ∧ self.window_ = none

/-- The window left by `Resize(640, 480)` on a fresh window with handle 7. -/
def sampleResized : WaylandWindow :=
  { WaylandWindow.ctor 7 with allocation_ := { x := 0, y := 0, width := 640, height := 480 } }

/-- Run a sequence of operations in order, stopping at the first fault. -/
def runAll : List Op → WaylandWindow → World → Outcome
  | [], self, env => Outcome.ok self env
  | op :: ops, self, env => (op.run self env).andThen fun self1 env1 => runAll ops self1 env1

/-- What it means for `self1` to still own the objects of `self`: the same shell
surface, and the same rendering context (same address, same drawing surface; its size
may have been changed by a resize request). -/
def WaylandWindow.Kept (self self1 : WaylandWindow) : Prop :=
  (∀ s, self.shell_surface_ = some s → self1.shell_surface_ = some s) ∧
  (∀ egl, self.window_ = some egl →
    ∃ egl1, self1.window_ = some egl1 ∧ egl1.addr = egl.addr ∧ egl1.surface = egl.surface)

/-- The window left by `SetShellAttributes(FULLSCREEN)` on a fresh window with handle 7
in `bareWorld`. -/
def sampleFullscreen : WaylandWindow :=
  { sampleWindow with type_ := ShellType.FULLSCREEN }

/-- The relation "`self1` is reached from `self` by operations that returned"; as in
`Reachable`, the world may be any world at each step. -/
inductive Reaches : WaylandWindow → WaylandWindow → Prop
  | refl (self : WaylandWindow) : Reaches self self
  | step (op : Op) (self mid : WaylandWindow) (env : World) (self1 : WaylandWindow)
      (env1 : World) :
      Reaches self mid → op.run mid env = Outcome.ok self1 env1 → Reaches self self1

/-- The sample realized window after `Resize(640, 480)`. -/
def sampleRealizedResized : WaylandWindow :=
  { sampleRealized with
    window_ := some { addr := 2, surface := 1, width := 640, height := 480 }
    allocation_ := { x := 0, y := 0, width := 640, height := 480 } }

/-! ## Basic facts about the building blocks -/

theorem callShell_some (self : WaylandWindow) (env : World) (req : Nat → Effect)
    (s : WaylandShellSurface) (hs : self.shell_surface_ = some s) :
    self.callShell env req = Outcome.ok self (env.emit (req s.addr)) := by
  simp [WaylandWindow.callShell, hs]

theorem callShell_none (self : WaylandWindow) (env : World) (req : Nat → Effect)
    (hs : self.shell_surface_ = none) :
    self.callShell env req = Outcome.fault Fault.NullDeref self env := by
  simp [WaylandWindow.callShell, hs]

theorem emit_log (env : World) (e : Effect) : (env.emit e).log = env.log ++ [e] := rfl

theorem emit_ne (env : World) (e : Effect) : env.emit e ≠ env := by
  intro h
  have hl := congrArg World.log h
  have hlen := congrArg List.length hl
  simp [World.emit] at hlen

/-! ## Fullscreen requests -/

/-- C1 (as amended): on a window that has a shell surface and whose mode is not
Fullscreen, `SetFullscreen()` issues exactly one `UpdateShellSurface(FULLSCREEN, no
parent, 0, 0)` request and leaves every field of the window, the mode included, as it
was; so a second call in a row issues the same request again.  Only when the mode is
already Fullscreen does `SetFullscreen()` issue nothing. -/
theorem SetFullscreen_requests (self : WaylandWindow) (env : World) :
    (∀ s, self.shell_surface_ = some s → self.type_ ≠ ShellType.FULLSCREEN →
      self.SetFullscreen env
          = Outcome.ok self
              (env.emit (Effect.UpdateShellSurface s.addr ShellType.FULLSCREEN none 0 0)) ∧
      (self.SetFullscreen env).andThen (fun w e => w.SetFullscreen e)
          = Outcome.ok self
              { env with
                log := env.log ++
                  [Effect.UpdateShellSurface s.addr ShellType.FULLSCREEN none 0 0,
                   Effect.UpdateShellSurface s.addr ShellType.FULLSCREEN none 0 0] }) ∧
    (self.type_ = ShellType.FULLSCREEN →
      self.SetFullscreen env = Outcome.ok self env ∧
      (self.SetFullscreen env).andThen (fun w e => w.SetFullscreen e) = Outcome.ok self env) := by
  refine ⟨?_, ?_⟩
  · intro s hs ht
    have h1 : self.SetFullscreen env
        = Outcome.ok self
            (env.emit (Effect.UpdateShellSurface s.addr ShellType.FULLSCREEN none 0 0)) := by
      simp [WaylandWindow.SetFullscreen, ht, callShell_some _ _ _ s hs]
    refine ⟨h1, ?_⟩
    rw [h1]
    simp [Outcome.andThen, WaylandWindow.SetFullscreen, ht, callShell_some _ _ _ s hs,
      World.emit]
  · intro ht
    simp [WaylandWindow.SetFullscreen, ht, Outcome.andThen]

/-- The amended C1 at the sample top-level window. -/
theorem SetFullscreen_requests_witness :
    sampleWindow.SetFullscreen sampleWorld
        = Outcome.ok sampleWindow
            (sampleWorld.emit
              (Effect.UpdateShellSurface sampleShell.addr ShellType.FULLSCREEN none 0 0)) ∧
    (sampleWindow.SetFullscreen sampleWorld).andThen (fun w e => w.SetFullscreen e)
        = Outcome.ok sampleWindow
            { sampleWorld with
              log := sampleWorld.log ++
                [Effect.UpdateShellSurface sampleShell.addr ShellType.FULLSCREEN none 0 0,
                 Effect.UpdateShellSurface sampleShell.addr ShellType.FULLSCREEN none 0 0] } :=
  (SetFullscreen_requests sampleWindow sampleWorld).1 sampleShell rfl (by decide)

/-- C1 fails as stated: the sample window has a shell surface and mode TopLevel, and
the second of two `SetFullscreen()` calls in a row issues a request of its own, so two
mode-change requests reach the shell surface, not one. -/
theorem SetFullscreen_twice_counterexample :
    sampleWindow.shell_surface_ = some sampleShell ∧
    sampleWindow.type_ ≠ ShellType.FULLSCREEN ∧
    sampleWindow.SetFullscreen sampleWorld
      = Outcome.ok sampleWindow
          { sampleWorld with
            log := [Effect.UpdateShellSurface 0 ShellType.FULLSCREEN none 0 0] } ∧
    sampleWindow.SetFullscreen
        { sampleWorld with log := [Effect.UpdateShellSurface 0 ShellType.FULLSCREEN none 0 0] }
      = Outcome.ok sampleWindow
          { sampleWorld with
            log := [Effect.UpdateShellSurface 0 ShellType.FULLSCREEN none 0 0,
                    Effect.UpdateShellSurface 0 ShellType.FULLSCREEN none 0 0] } := by
  refine ⟨rfl, by decide, rfl, rfl⟩

/-- C2 (as amended): on a window that has a shell surface, `SetFullscreen()` returns
with every field of the window unchanged, and a following `Maximize()` or `Restore()`,
in whatever world it runs, leaves the window unchanged as well.  They issue no request
when the mode is Fullscreen; otherwise `Maximize()` issues one maximize request and
`Restore()` one `UpdateShellSurface(current mode, no parent, 0, 0)`. -/
theorem Maximize_Restore_after_SetFullscreen (self : WaylandWindow) (env : World)
    (s : WaylandShellSurface) (hs : self.shell_surface_ = some s) :
    (∃ env1, self.SetFullscreen env = Outcome.ok self env1) ∧
    (self.type_ = ShellType.FULLSCREEN → ∀ e : World,
      self.Maximize e = Outcome.ok self e ∧ self.Restore e = Outcome.ok self e) ∧
    (self.type_ ≠ ShellType.FULLSCREEN → ∀ e : World,
      self.Maximize e = Outcome.ok self (e.emit (Effect.Maximize s.addr)) ∧
      self.Restore e
        = Outcome.ok self (e.emit (Effect.UpdateShellSurface s.addr self.type_ none 0 0))) := by
  refine ⟨?_, ?_, ?_⟩
  · by_cases ht : self.type_ = ShellType.FULLSCREEN
    · exact ⟨env, by simp [WaylandWindow.SetFullscreen, ht]⟩
    · exact ⟨env.emit (Effect.UpdateShellSurface s.addr ShellType.FULLSCREEN none 0 0),
        by simp [WaylandWindow.SetFullscreen, ht, callShell_some _ _ _ s hs]⟩
  · intro ht e
    simp [WaylandWindow.Maximize, WaylandWindow.Restore, ht]
  · intro ht e
    simp [WaylandWindow.Maximize, WaylandWindow.Restore, ht, callShell_some _ _ _ s hs]

/-- The amended C2 at the sample top-level window. -/
theorem Maximize_Restore_after_SetFullscreen_witness :
    sampleWindow.shell_surface_ = some sampleShell ∧
    sampleWindow.type_ ≠ ShellType.FULLSCREEN ∧
    sampleWindow.Maximize sampleWorld
      = Outcome.ok sampleWindow (sampleWorld.emit (Effect.Maximize sampleShell.addr)) ∧
    sampleWindow.Restore sampleWorld
      = Outcome.ok sampleWindow
          (sampleWorld.emit
            (Effect.UpdateShellSurface sampleShell.addr sampleWindow.type_ none 0 0)) :=
  ⟨rfl, by decide,
    (Maximize_Restore_after_SetFullscreen sampleWindow sampleWorld sampleShell rfl).2.2
      (by decide) sampleWorld⟩

/-- C2 fails as stated: after `SetFullscreen()` on the sample top-level window, the
following `Maximize()` issues a maximize request and the following `Restore()` issues
a top-level request; neither is a no-op. -/
theorem Maximize_Restore_after_SetFullscreen_counterexample :
    sampleWindow.shell_surface_ = some sampleShell ∧
    sampleWindow.SetFullscreen sampleWorld
      = Outcome.ok sampleWindow
          { sampleWorld with
            log := [Effect.UpdateShellSurface 0 ShellType.FULLSCREEN none 0 0] } ∧
    sampleWindow.Maximize
        { sampleWorld with log := [Effect.UpdateShellSurface 0 ShellType.FULLSCREEN none 0 0] }
      = Outcome.ok sampleWindow
          { sampleWorld with
            log := [Effect.UpdateShellSurface 0 ShellType.FULLSCREEN none 0 0,
                    Effect.Maximize 0] } ∧
    sampleWindow.Restore
        { sampleWorld with log := [Effect.UpdateShellSurface 0 ShellType.FULLSCREEN none 0 0] }
      = Outcome.ok sampleWindow
          { sampleWorld with
            log := [Effect.UpdateShellSurface 0 ShellType.FULLSCREEN none 0 0,
                    Effect.UpdateShellSurface 0 ShellType.TOPLEVEL none 0 0] } := by
  refine ⟨rfl, rfl, rfl, rfl⟩

/-! ## Resize -/

/-- C3: `Resize(w, h)` with (w, h) equal to the cached width and height returns the
window and the world exactly as they were: allocation and every other field unchanged,
no rendering-context resize, no display flush.  In particular `Resize(1, 1)` on a
freshly constructed window, whatever its handle, touches nothing. -/
theorem Resize_same_size_noop :
    (∀ (self : WaylandWindow) (env : World),
      self.Resize env self.allocation_.width self.allocation_.height = Outcome.ok self env) ∧
    (∀ (handle : Nat) (env : World),
      (WaylandWindow.ctor handle).allocation_ = { x := 0, y := 0, width := 1, height := 1 } ∧
      (WaylandWindow.ctor handle).Resize env 1 1 = Outcome.ok (WaylandWindow.ctor handle) env) := by
  refine ⟨?_, ?_⟩
  · intro self env
    simp [WaylandWindow.Resize]
  · intro handle env
    exact ⟨rfl, by simp [WaylandWindow.Resize, WaylandWindow.ctor]⟩

/-- C4: `Resize(w, h)` with (w, h) different from the cached width and height returns,
and the cached allocation becomes (old x, old y, w, h) while shell surface, mode and
handle stay.  With both a shell surface and a rendering context it issues exactly one
rendering-context resize with (w, h) followed by exactly one display flush, and nothing
else; with either missing it issues nothing and only the cached rectangle changes. -/
theorem Resize_new_size (self : WaylandWindow) (env : World) (width height : Nat)
    (hne : ¬ (self.allocation_.width = width ∧ self.allocation_.height = height)) :
    ∃ self1 env1, self.Resize env width height = Outcome.ok self1 env1 ∧
      self1.allocation_
        = { x := self.allocation_.x, y := self.allocation_.y, width := width, height := height } ∧
      self1.shell_surface_ = self.shell_surface_ ∧ self1.type_ = self.type_ ∧
      self1.handle_ = self.handle_ ∧
      (∀ s egl, self.shell_surface_ = some s → self.window_ = some egl →
        env1 = { env with
                 log := env.log ++
                   [Effect.ResizeEGLWindow egl.addr s.surface_ width height,
                    Effect.FlushDisplay] } ∧
        self1.window_ = some { egl with width := width, height := height }) ∧
      ((self.shell_surface_ = none ∨ self.window_ = none) →
        env1 = env ∧ self1.window_ = self.window_) := by
  cases hs : self.shell_surface_ with
  | none =>
    refine ⟨_, _, by simp only [WaylandWindow.Resize, hne, if_false, hs]; rfl, ?_⟩
    simp [hs]
  | some s =>
    cases hw : self.window_ with
    | none =>
      refine ⟨_, _, by simp only [WaylandWindow.Resize, hne, if_false, hs, hw]; rfl, ?_⟩
      simp [hs, hw]
    | some egl =>
      refine ⟨_, _, by simp only [WaylandWindow.Resize, hne, if_false, hs, hw]; rfl, ?_⟩
      simp [hs, hw, World.emit]

/-- C4 at the sample realized window (size 1 by 1) resized to 640 by 480: one
rendering-context resize, then one flush. -/
theorem Resize_new_size_witness :
    ¬ (sampleRealized.allocation_.width = 640 ∧ sampleRealized.allocation_.height = 480) ∧
    ∃ self1 env1, sampleRealized.Resize sampleWorld 640 480 = Outcome.ok self1 env1 ∧
      self1.allocation_ = { x := 0, y := 0, width := 640, height := 480 } ∧
      env1 = { sampleWorld with
               log := [Effect.ResizeEGLWindow 2 1 640 480, Effect.FlushDisplay] } := by
  have hne : ¬ (sampleRealized.allocation_.width = 640 ∧
      sampleRealized.allocation_.height = 480) := by decide
  obtain ⟨self1, env1, h, ha, _, _, _, hboth, _⟩ :=
    Resize_new_size sampleRealized sampleWorld 640 480 hne
  exact ⟨hne, self1, env1, h, ha,
    (hboth sampleShell { addr := 2, surface := 1, width := 1, height := 1 } rfl rfl).1⟩

/-! ## Shell attributes -/

/-- C5: the popup form `SetShellAttributes(POPUP, parent, x, y)` with a null parent is
rejected by the `DCHECK` on entry, whatever the window, the world, x and y: the run
stops with the window and the world exactly as they were, so no shell surface is
created, the mode is unchanged and no request, top-level, popup or other, is issued. -/
theorem SetShellAttributesPopup_null_parent_rejected (self : WaylandWindow) (env : World)
    (x y : Nat) :
    self.SetShellAttributesPopup env ShellType.POPUP none x y
      = Outcome.fault Fault.DCheck self env := by
  simp [WaylandWindow.SetShellAttributesPopup]

/-- C6 (as amended): on a freshly constructed window the first `SetShellAttributes(type)`
with a type other than None returns, allocates the shell surface (and its drawing
surface) and then registers the window as the user data of that drawing surface; both
happen exactly once.  With type None, the mode a fresh window already has, the call
returns at once: nothing is allocated and nothing registered. -/
theorem SetShellAttributes_first_call (handle : Nat) (env : World) (type : ShellType) :
    (type ≠ ShellType.None →
      ∃ self1 env1 rest,
        (WaylandWindow.ctor handle).SetShellAttributes env type = Outcome.ok self1 env1 ∧
        self1.shell_surface_
          = some { addr := env.next_, surface_ := env.next_ + 1, window := handle } ∧
        env1.log = env.log ++
          [Effect.NewShellSurface
             { addr := env.next_, surface_ := env.next_ + 1, window := handle },
           Effect.SetUserData (env.next_ + 1) (some handle)] ++ rest ∧
        ∀ e ∈ rest, (∀ s, e ≠ Effect.NewShellSurface s) ∧ (∀ a d, e ≠ Effect.SetUserData a d)) ∧
    (type = ShellType.None →
      (WaylandWindow.ctor handle).SetShellAttributes env type
        = Outcome.ok (WaylandWindow.ctor handle) env) := by
  refine ⟨?_, ?_⟩
  · intro ht
    have ht2 : ¬ ShellType.None = type := fun h => ht h.symm
    have h : (WaylandWindow.ctor handle).SetShellAttributes env type
        = Outcome.ok
            { WaylandWindow.ctor handle with
              shell_surface_ :=
                some { addr := env.next_, surface_ := env.next_ + 1, window := handle }
              type_ := type }
            { env with
              next_ := env.next_ + 2
              log := env.log ++
                [Effect.NewShellSurface
                   { addr := env.next_, surface_ := env.next_ + 1, window := handle },
                 Effect.SetUserData (env.next_ + 1) (some handle),
                 Effect.UpdateShellSurface env.next_ type none 0 0] } := by
      simp [WaylandWindow.SetShellAttributes, WaylandWindow.ctor, ht2, World.newShellSurface,
        WaylandWindow.setUserData, WaylandWindow.GetSurface, Outcome.andThen,
        WaylandWindow.callShell, World.emit]
    refine ⟨_, _, [Effect.UpdateShellSurface env.next_ type none 0 0], h, rfl, ?_, ?_⟩
    · simp
    · intro e he
      simp only [List.mem_singleton] at he
      subst he
      exact ⟨fun s hs => (by cases hs), fun a d hs => (by cases hs)⟩
  · intro ht
    simp [WaylandWindow.SetShellAttributes, WaylandWindow.ctor, ht]

/-- The amended C6 for a first `SetShellAttributes(TOPLEVEL)` on a fresh window. -/
theorem SetShellAttributes_first_call_witness :
    ShellType.TOPLEVEL ≠ ShellType.None ∧
    ∃ self1 env1 rest,
      (WaylandWindow.ctor 7).SetShellAttributes bareWorld ShellType.TOPLEVEL
        = Outcome.ok self1 env1 ∧
      self1.shell_surface_ = some { addr := 0, surface_ := 1, window := 7 } ∧
      env1.log = [] ++
        [Effect.NewShellSurface { addr := 0, surface_ := 1, window := 7 },
         Effect.SetUserData (0 + 1) (some 7)] ++ rest ∧
      ∀ e ∈ rest, (∀ s, e ≠ Effect.NewShellSurface s) ∧ (∀ a d, e ≠ Effect.SetUserData a d) :=
  ⟨by decide, (SetShellAttributes_first_call 7 bareWorld ShellType.TOPLEVEL).1 (by decide)⟩

/-- C6 fails as stated: the first-ever `SetShellAttributes(None)` on a fresh window
returns with no shell surface allocated and nothing logged, so no user data is
registered either. -/
theorem SetShellAttributes_None_counterexample :
    (WaylandWindow.ctor 7).shell_surface_ = none ∧
    (WaylandWindow.ctor 7).type_ = ShellType.None ∧
    (WaylandWindow.ctor 7).SetShellAttributes bareWorld ShellType.None
      = Outcome.ok
          { shell_surface_ := none, window_ := none, type_ := ShellType.None, handle_ := 7,
            allocation_ := { x := 0, y := 0, width := 1, height := 1 } }
          { display := { primary_input_ := none }, next_ := 0, log := [] } := by
  refine ⟨rfl, rfl, rfl⟩

/-- C7 (as amended): on a window that already has a shell surface,
`SetShellAttributes(type)` with type equal to the current mode is a no-op: no request,
window and world unchanged.  The popup form `SetShellAttributes(POPUP, parent, x, y)`
with a non-null parent on a window already in mode Popup leaves the window unchanged
and registers no grab, but it does issue one `UpdateShellSurface(POPUP, parent, x, y)`. -/
theorem SetShellAttributes_same_mode (self : WaylandWindow) (env : World)
    (s : WaylandShellSurface) (hs : self.shell_surface_ = some s) :
    self.SetShellAttributes env self.type_ = Outcome.ok self env ∧
    (self.type_ = ShellType.POPUP → ∀ (parent : WaylandShellSurface) (x y : Nat),
      self.SetShellAttributesPopup env ShellType.POPUP (some parent) x y
        = Outcome.ok self
            (env.emit (Effect.UpdateShellSurface s.addr ShellType.POPUP (some parent) x y))) := by
  refine ⟨by simp [WaylandWindow.SetShellAttributes], ?_⟩
  intro ht parent x y
  have hself : { self with type_ := ShellType.POPUP } = self := by
    cases self
    simp_all
  have h : self.SetShellAttributesPopup env ShellType.POPUP (some parent) x y
      = WaylandWindow.callShell { self with type_ := ShellType.POPUP } env
          (fun a => Effect.UpdateShellSurface a ShellType.POPUP (some parent) x y) := by
    simp [WaylandWindow.SetShellAttributesPopup, hs, Outcome.andThen]
  rw [h, hself, callShell_some self env _ s hs]

/-- The amended C7 at the sample popup window. -/
theorem SetShellAttributes_same_mode_witness :
    samplePopup.shell_surface_ = some sampleShell ∧
    samplePopup.type_ = ShellType.POPUP ∧
    samplePopup.SetShellAttributes sampleWorld samplePopup.type_
      = Outcome.ok samplePopup sampleWorld ∧
    samplePopup.SetShellAttributesPopup sampleWorld ShellType.POPUP (some sampleParent) 3 4
      = Outcome.ok samplePopup
          (sampleWorld.emit
            (Effect.UpdateShellSurface sampleShell.addr ShellType.POPUP (some sampleParent) 3 4)) :=
  ⟨rfl, rfl, (SetShellAttributes_same_mode samplePopup sampleWorld sampleShell rfl).1,
    (SetShellAttributes_same_mode samplePopup sampleWorld sampleShell rfl).2 rfl sampleParent 3 4⟩

/-- C7 fails as stated: the sample popup window has a shell surface and mode Popup,
and the popup form with a non-null parent still issues an `UpdateShellSurface`
request. -/
theorem SetShellAttributesPopup_same_mode_counterexample :
    samplePopup.shell_surface_ = some sampleShell ∧
    samplePopup.type_ = ShellType.POPUP ∧
    samplePopup.SetShellAttributesPopup sampleWorld ShellType.POPUP (some sampleParent) 3 4
      = Outcome.ok samplePopup
          { sampleWorld with
            log := [Effect.UpdateShellSurface 0 ShellType.POPUP (some sampleParent) 3 4] } := by
  refine ⟨rfl, rfl, rfl⟩

/-- C8 (as amended): on a window with no shell surface, the popup form with a non-null
parent succeeds when a primary input device exists: it creates the shell surface,
registers the window as its user data, registers the window handle as the grab target
on the primary input device, sets the mode to Popup and issues one popup request with
(parent, x, y).  When no primary input device exists the call does not return: the
run stops at the dereference of the missing device, after the shell surface was
created and before the mode is set or a popup request issued.  When the window already
has a shell surface the device is not consulted and no grab is registered. -/
theorem SetShellAttributesPopup_grab (self : WaylandWindow) (env : World)
    (parent : WaylandShellSurface) (x y : Nat) :
    (self.shell_surface_ = none →
      (∀ input, env.display.primary_input_ = some input →
        self.SetShellAttributesPopup env ShellType.POPUP (some parent) x y
          = Outcome.ok
              { self with
                shell_surface_ :=
                  some { addr := env.next_, surface_ := env.next_ + 1, window := self.handle_ }
                type_ := ShellType.POPUP }
              { display :=
                  { primary_input_ :=
                      some { grab_window_handle_ := self.handle_, grab_button_ := 0 } }
                next_ := env.next_ + 2
                log := env.log ++
                  [Effect.NewShellSurface
                     { addr := env.next_, surface_ := env.next_ + 1, window := self.handle_ },
                   Effect.SetUserData (env.next_ + 1) (some self.handle_),
                   Effect.SetGrabWindowHandle self.handle_ 0,
                   Effect.UpdateShellSurface env.next_ ShellType.POPUP (some parent) x y] }) ∧
      (env.display.primary_input_ = none →
        self.SetShellAttributesPopup env ShellType.POPUP (some parent) x y
          = Outcome.fault Fault.NullDeref
              { self with
                shell_surface_ :=
                  some { addr := env.next_, surface_ := env.next_ + 1, window := self.handle_ } }
              { env with
                next_ := env.next_ + 2
                log := env.log ++
                  [Effect.NewShellSurface
                     { addr := env.next_, surface_ := env.next_ + 1, window := self.handle_ },
                   Effect.SetUserData (env.next_ + 1) (some self.handle_)] })) ∧
    (∀ s, self.shell_surface_ = some s →
      self.SetShellAttributesPopup env ShellType.POPUP (some parent) x y
        = Outcome.ok { self with type_ := ShellType.POPUP }
            { env with
              log := env.log ++
                [Effect.UpdateShellSurface s.addr ShellType.POPUP (some parent) x y] }) := by
  refine ⟨?_, ?_⟩
  · intro hs
    refine ⟨?_, ?_⟩
    · intro input hi
      simp [WaylandWindow.SetShellAttributesPopup, hs, World.newShellSurface,
        WaylandWindow.setUserData, WaylandWindow.GetSurface, Outcome.andThen,
        WaylandWindow.grabPrimaryInput, World.emit, hi, WaylandWindow.callShell,
        WaylandInputDevice.SetGrabWindowHandle]
    · intro hi
      simp [WaylandWindow.SetShellAttributesPopup, hs, World.newShellSurface,
        WaylandWindow.setUserData, WaylandWindow.GetSurface, Outcome.andThen,
        WaylandWindow.grabPrimaryInput, World.emit, hi]
  · intro s hs
    simp [WaylandWindow.SetShellAttributesPopup, hs, Outcome.andThen, WaylandWindow.callShell,
      World.emit]

/-- The amended C8 on a fresh window in a world that has a primary input device. -/
theorem SetShellAttributesPopup_grab_witness :
    (WaylandWindow.ctor 7).shell_surface_ = none ∧
    sampleWorld.display.primary_input_
      = some { grab_window_handle_ := 0, grab_button_ := 0 } ∧
    (WaylandWindow.ctor 7).SetShellAttributesPopup sampleWorld ShellType.POPUP
        (some sampleParent) 3 4
      = Outcome.ok
          { WaylandWindow.ctor 7 with
            shell_surface_ := some { addr := 2, surface_ := 3, window := 7 }
            type_ := ShellType.POPUP }
          { display :=
              { primary_input_ := some { grab_window_handle_ := 7, grab_button_ := 0 } }
            next_ := 4
            log := [Effect.NewShellSurface { addr := 2, surface_ := 3, window := 7 },
                    Effect.SetUserData 3 (some 7),
                    Effect.SetGrabWindowHandle 7 0,
                    Effect.UpdateShellSurface 2 ShellType.POPUP (some sampleParent) 3 4] } :=
  ⟨rfl, rfl,
    ((SetShellAttributesPopup_grab (WaylandWindow.ctor 7) sampleWorld sampleParent 3 4).1 rfl).1
      { grab_window_handle_ := 0, grab_button_ := 0 } rfl⟩

/-- C8 fails as stated: on a fresh window, in a world without a primary input device,
the popup form with a non-null parent does not succeed; the run stops with a null
dereference, the mode still None and no popup request issued. -/
theorem SetShellAttributesPopup_no_input_counterexample :
    (WaylandWindow.ctor 7).shell_surface_ = none ∧
    bareWorld.display.primary_input_ = none ∧
    (WaylandWindow.ctor 7).SetShellAttributesPopup bareWorld ShellType.POPUP
        (some sampleParent) 3 4
      = Outcome.fault Fault.NullDeref
          { shell_surface_ := some { addr := 0, surface_ := 1, window := 7 }
            window_ := none, type_ := ShellType.None, handle_ := 7
            allocation_ := { x := 0, y := 0, width := 1, height := 1 } }
          { display := { primary_input_ := none }
            next_ := 2
            log := [Effect.NewShellSurface { addr := 0, surface_ := 1, window := 7 },
                    Effect.SetUserData 1 (some 7)] } := by
  refine ⟨rfl, rfl, rfl⟩

/-! ## Realization -/

theorem ctor_bound (handle : Nat) : (WaylandWindow.ctor handle).Bound := by
  intro _
  exact ⟨rfl, rfl⟩

theorem callShell_ok (self : WaylandWindow) (env : World) (req : Nat → Effect)
    (self1 : WaylandWindow) (env1 : World)
    (h : self.callShell env req = Outcome.ok self1 env1) :
    self1 = self ∧ self.shell_surface_.isSome = true := by
  unfold WaylandWindow.callShell at h
  cases hs : self.shell_surface_ with
  | none => simp [hs] at h
  | some s =>
    simp [hs] at h
    exact ⟨h.1.symm, rfl⟩

theorem SetShellAttributes_bound (self : WaylandWindow) (env : World) (type : ShellType)
    (self1 : WaylandWindow) (env1 : World) (hb : self.Bound)
    (h : self.SetShellAttributes env type = Outcome.ok self1 env1) : self1.Bound := by
  unfold WaylandWindow.SetShellAttributes at h
  by_cases ht : self.type_ = type
  · simp [ht] at h
    rw [← h.1]
    exact hb
  · cases hs : self.shell_surface_ with
    | none =>
      simp [ht, hs, World.newShellSurface, WaylandWindow.setUserData, WaylandWindow.GetSurface,
        Outcome.andThen, WaylandWindow.callShell] at h
      intro hn
      rw [← h.1] at hn
      simp at hn
    | some s =>
      simp [ht, hs, Outcome.andThen, WaylandWindow.callShell] at h
      intro hn
      rw [← h.1] at hn
      simp [hs] at hn

theorem SetShellAttributesPopup_bound (self : WaylandWindow) (env : World) (type : ShellType)
    (p : Option WaylandShellSurface) (x y : Nat)
    (self1 : WaylandWindow) (env1 : World)
    (h : self.SetShellAttributesPopup env type p x y = Outcome.ok self1 env1) : self1.Bound := by
  unfold WaylandWindow.SetShellAttributesPopup at h
  by_cases hd : p.isSome = true ∧ type = ShellType.POPUP
  · cases hs : self.shell_surface_ with
    | none =>
      cases hi : env.display.primary_input_ with
      | none =>
        simp [hd, hs, World.newShellSurface, WaylandWindow.setUserData,
          WaylandWindow.GetSurface, Outcome.andThen, WaylandWindow.grabPrimaryInput, hi,
          World.emit] at h
      | some input =>
        simp [hd, hs, World.newShellSurface, WaylandWindow.setUserData,
          WaylandWindow.GetSurface, Outcome.andThen, WaylandWindow.grabPrimaryInput, hi,
          World.emit, WaylandWindow.callShell] at h
        intro hn
        rw [← h.1] at hn
        simp at hn
    | some s =>
      simp [hd, hs, Outcome.andThen, WaylandWindow.callShell] at h
      intro hn
      rw [← h.1] at hn
      simp [hs] at hn
  · simp [hd] at h

theorem RealizeAcceleratedWidget_shape (self : WaylandWindow) (env : World) (hb : self.Bound) :
    (self.shell_surface_ = none →
      self.RealizeAcceleratedWidget env
        = Outcome.ok
            { self with
              shell_surface_ :=
                some { addr := env.next_, surface_ := env.next_ + 1, window := self.handle_ }
              type_ := ShellType.TOPLEVEL
              window_ :=
                some { addr := env.next_ + 2, surface := env.next_ + 1
                       width := self.allocation_.width, height := self.allocation_.height } }
            { env with
              next_ := env.next_ + 3
              log := env.log ++
                [Effect.LogError "Shell type not set. Setting it to TopLevel",
                 Effect.NewShellSurface
                   { addr := env.next_, surface_ := env.next_ + 1, window := self.handle_ },
                 Effect.SetUserData (env.next_ + 1) (some self.handle_),
                 Effect.UpdateShellSurface env.next_ ShellType.TOPLEVEL none 0 0,
                 Effect.NewEGLWindow
                   { addr := env.next_ + 2, surface := env.next_ + 1
                     width := self.allocation_.width, height := self.allocation_.height }] }) ∧
    (∀ s, self.shell_surface_ = some s → self.window_ = none →
      self.RealizeAcceleratedWidget env
        = Outcome.ok
            { self with
              window_ :=
                some { addr := env.next_, surface := s.surface_
                       width := self.allocation_.width, height := self.allocation_.height } }
            { env with
              next_ := env.next_ + 1
              log := env.log ++
                [Effect.NewEGLWindow
                   { addr := env.next_, surface := s.surface_
                     width := self.allocation_.width, height := self.allocation_.height }] }) ∧
    (∀ s egl, self.shell_surface_ = some s → self.window_ = some egl →
      self.RealizeAcceleratedWidget env = Outcome.ok self env) := by
  refine ⟨?_, ?_, ?_⟩
  · intro hs
    obtain ⟨ht, hw⟩ := hb hs
    simp [WaylandWindow.RealizeAcceleratedWidget, hs, WaylandWindow.SetShellAttributes, ht,
      World.newShellSurface, WaylandWindow.setUserData, WaylandWindow.GetSurface,
      Outcome.andThen, WaylandWindow.callShell, World.emit, hw]
  · intro s hs hw
    simp [WaylandWindow.RealizeAcceleratedWidget, hs, Outcome.andThen, hw]
  · intro s egl hs hw
    simp [WaylandWindow.RealizeAcceleratedWidget, hs, Outcome.andThen, hw]

theorem run_bound (op : Op) (self : WaylandWindow) (env : World)
    (self1 : WaylandWindow) (env1 : World) (hb : self.Bound)
    (h : op.run self env = Outcome.ok self1 env1) : self1.Bound := by
  cases op with
  | SetShellAttributes type => exact SetShellAttributes_bound self env type self1 env1 hb h
  | SetShellAttributesPopup type p x y =>
    exact SetShellAttributesPopup_bound self env type p x y self1 env1 h
  | SetWindowTitle title =>
    simp only [Op.run, WaylandWindow.SetWindowTitle] at h
    rw [(callShell_ok self env _ self1 env1 h).1]
    exact hb
  | Maximize =>
    simp only [Op.run, WaylandWindow.Maximize] at h
    split at h
    · rw [(callShell_ok self env _ self1 env1 h).1]
      exact hb
    · cases h
      exact hb
  | Minimize =>
    simp only [Op.run, WaylandWindow.Minimize] at h
    cases h
    exact hb
  | Restore =>
    simp only [Op.run, WaylandWindow.Restore] at h
    split at h
    · rw [(callShell_ok self env _ self1 env1 h).1]
      exact hb
    · cases h
      exact hb
  | SetFullscreen =>
    simp only [Op.run, WaylandWindow.SetFullscreen] at h
    split at h
    · rw [(callShell_ok self env _ self1 env1 h).1]
      exact hb
    · cases h
      exact hb
  | RealizeAcceleratedWidget =>
    simp only [Op.run] at h
    obtain ⟨h1, h2, h3⟩ := RealizeAcceleratedWidget_shape self env hb
    cases hs : self.shell_surface_ with
    | none =>
      rw [h1 hs] at h
      cases h
      intro hn
      simp at hn
    | some s =>
      cases hw : self.window_ with
      | none =>
        rw [h2 s hs hw] at h
        cases h
        intro hn
        simp [hs] at hn
      | some egl =>
        rw [h3 s egl hs hw] at h
        cases h
        exact hb
  | Resize width height =>
    simp only [Op.run, WaylandWindow.Resize] at h
    split at h
    · cases h
      exact hb
    · cases hs : self.shell_surface_ with
      | none =>
        obtain ⟨ht, hw⟩ := hb hs
        simp [hs] at h
        intro _
        rw [← h.1]
        exact ⟨ht, hw⟩
      | some s =>
        intro hn
        cases hw : self.window_ with
        | none =>
          simp [hs, hw] at h
          rw [← h.1] at hn
          simp [hs] at hn
        | some egl =>
          simp [hs, hw] at h
          rw [← h.1] at hn
          simp [hs] at hn

theorem reachable_bound (self : WaylandWindow) (hr : Reachable self) : self.Bound := by
  induction hr with
  | fresh handle => exact ctor_bound handle
  | step op self env self1 env1 _ h ih => exact run_bound op self env self1 env1 ih h

theorem sampleResized_reachable : Reachable sampleResized :=
  Reachable.step (Op.Resize 640 480) (WaylandWindow.ctor 7) bareWorld sampleResized bareWorld
    (Reachable.fresh 7) rfl

/-- C9: in every window state reachable from a fresh window by operations that
returned, `RealizeAcceleratedWidget()` returns with a shell surface and a rendering
context both present, allocation and handle untouched.  If there was no shell surface,
a new one is created, the mode becomes TopLevel and the log grows by the corrective
message, the allocation of the shell surface, the user-data registration, one top-level
request and the creation of the rendering context.  If there was no rendering context,
the new one has exactly the cached width and height and is built over the drawing
surface of the shell surface.  An existing shell surface keeps its identity and the
mode stays; with an existing rendering context the call changes nothing at all. -/
theorem RealizeAcceleratedWidget_realizes (self : WaylandWindow) (env : World)
    (hr : Reachable self) :
    ∃ self1 env1, self.RealizeAcceleratedWidget env = Outcome.ok self1 env1 ∧
      self1.shell_surface_.isSome = true ∧ self1.window_.isSome = true ∧
      self1.allocation_ = self.allocation_ ∧ self1.handle_ = self.handle_ ∧
      (self.shell_surface_ = none →
        self1.shell_surface_
          = some { addr := env.next_, surface_ := env.next_ + 1, window := self.handle_ } ∧
        self1.type_ = ShellType.TOPLEVEL ∧
        env1.log = env.log ++
          [Effect.LogError "Shell type not set. Setting it to TopLevel",
           Effect.NewShellSurface
             { addr := env.next_, surface_ := env.next_ + 1, window := self.handle_ },
           Effect.SetUserData (env.next_ + 1) (some self.handle_),
           Effect.UpdateShellSurface env.next_ ShellType.TOPLEVEL none 0 0,
           Effect.NewEGLWindow
             { addr := env.next_ + 2, surface := env.next_ + 1
               width := self.allocation_.width, height := self.allocation_.height }]) ∧
      (self.window_ = none →
        ∃ s egl, self1.shell_surface_ = some s ∧ self1.window_ = some egl ∧
          egl.surface = s.surface_ ∧
          egl.width = self.allocation_.width ∧ egl.height = self.allocation_.height) ∧
      (∀ s, self.shell_surface_ = some s →
        self1.shell_surface_ = some s ∧ self1.type_ = self.type_ ∧
        (self.window_ = none →
          env1.log = env.log ++
            [Effect.NewEGLWindow
               { addr := env.next_, surface := s.surface_
                 width := self.allocation_.width, height := self.allocation_.height }])) ∧
      (∀ egl, self.window_ = some egl → self1 = self ∧ env1 = env) := by
  have hb := reachable_bound self hr
  obtain ⟨h1, h2, h3⟩ := RealizeAcceleratedWidget_shape self env hb
  cases hs : self.shell_surface_ with
  | none =>
    obtain ⟨_, hw⟩ := hb hs
    refine ⟨_, _, h1 hs, ?_⟩
    simp [hw]
  | some s =>
    cases hw : self.window_ with
    | none =>
      refine ⟨_, _, h2 s hs hw, ?_⟩
      simp [hs]
    | some egl =>
      refine ⟨_, _, h3 s egl hs hw, ?_⟩
      simp [hs, hw]

/-- C9 at the window left by `Resize(640, 480)` on a fresh window: realization returns
a top-level window whose rendering context is 640 by 480. -/
theorem RealizeAcceleratedWidget_realizes_witness :
    Reachable sampleResized ∧
    ∃ self1 env1, sampleResized.RealizeAcceleratedWidget bareWorld = Outcome.ok self1 env1 ∧
      self1.type_ = ShellType.TOPLEVEL ∧
      ∃ s egl, self1.shell_surface_ = some s ∧ self1.window_ = some egl ∧
        egl.surface = s.surface_ ∧ egl.width = 640 ∧ egl.height = 480 := by
  obtain ⟨self1, env1, h, _, _, _, _, hnew, hctx, _, _⟩ :=
    RealizeAcceleratedWidget_realizes sampleResized bareWorld sampleResized_reachable
  exact ⟨sampleResized_reachable, self1, env1, h, (hnew rfl).2.1, hctx rfl⟩

/-! ## Destruction -/

/-- C10: destroying a window whose shell surface and rendering context both exist
completes, and its effects are, in this order and each exactly once: the user data of
the drawing surface is cleared, the rendering context is deleted, the shell surface is
deleted. -/
theorem dtor_order (self : WaylandWindow) (env : World) (s : WaylandShellSurface)
    (egl : EGLWindow) (hs : self.shell_surface_ = some s) (hw : self.window_ = some egl) :
    self.dtor env
      = Destroyed.ok
          { env with
            log := env.log ++
              [Effect.SetUserData s.surface_ none,
               Effect.DeleteEGLWindow egl.addr,
               Effect.DeleteShellSurface s.addr] } := by
  simp [WaylandWindow.dtor, WaylandWindow.setUserData, WaylandWindow.GetSurface, hs, hw,
    World.deleteEGLWindow, World.deleteShellSurface, World.emit]

/-- C10 at the sample realized window. -/
theorem dtor_order_witness :
    sampleRealized.shell_surface_ = some sampleShell ∧
    sampleRealized.window_ = some { addr := 2, surface := 1, width := 1, height := 1 } ∧
    sampleRealized.dtor sampleWorld
      = Destroyed.ok
          { sampleWorld with
            log := [Effect.SetUserData 1 none,
                    Effect.DeleteEGLWindow 2,
                    Effect.DeleteShellSurface 0] } :=
  ⟨rfl, rfl,
    dtor_order sampleRealized sampleWorld sampleShell
      { addr := 2, surface := 1, width := 1, height := 1 } rfl rfl⟩

/-! ## Title, maximize, restore, minimize -/

/-- C11: `SetWindowTitle(title)` on a window with no shell surface fails at the
dereference of the missing shell surface, with the window and the world as they were,
so no request is issued.  On a window with a shell surface it returns, issues exactly
one set-title request carrying the same title to the owned shell surface, and leaves
every field of the window, mode and allocation included, unchanged. -/
theorem SetWindowTitle_contract (self : WaylandWindow) (env : World) (title : String) :
    (self.shell_surface_ = none →
      self.SetWindowTitle env title = Outcome.fault Fault.NullDeref self env) ∧
    (∀ s, self.shell_surface_ = some s →
      self.SetWindowTitle env title
        = Outcome.ok self
            { env with log := env.log ++ [Effect.SetWindowTitle s.addr title] }) := by
  refine ⟨?_, ?_⟩
  · intro hs
    simp [WaylandWindow.SetWindowTitle, callShell_none _ _ _ hs]
  · intro s hs
    simp [WaylandWindow.SetWindowTitle, callShell_some _ _ _ s hs, World.emit]

/-- C11 on a fresh window (no shell surface) and on the sample top-level window. -/
theorem SetWindowTitle_contract_witness :
    (WaylandWindow.ctor 7).shell_surface_ = none ∧
    (WaylandWindow.ctor 7).SetWindowTitle bareWorld "tab"
      = Outcome.fault Fault.NullDeref (WaylandWindow.ctor 7) bareWorld ∧
    sampleWindow.shell_surface_ = some sampleShell ∧
    sampleWindow.SetWindowTitle sampleWorld "tab"
      = Outcome.ok sampleWindow
          { sampleWorld with
            log := sampleWorld.log ++ [Effect.SetWindowTitle sampleShell.addr "tab"] } :=
  ⟨rfl, (SetWindowTitle_contract (WaylandWindow.ctor 7) bareWorld "tab").1 rfl, rfl,
    (SetWindowTitle_contract sampleWindow sampleWorld "tab").2 sampleShell rfl⟩

/-- C12: on a window that has a shell surface and whose mode is not Fullscreen,
`Restore()` issues exactly one `UpdateShellSurface(current mode, no parent, 0, 0)` and
`Maximize()` exactly one maximize request; both return with every field of the window,
mode and allocation included, unchanged. -/
theorem Restore_Maximize_requests (self : WaylandWindow) (env : World)
    (s : WaylandShellSurface) (hs : self.shell_surface_ = some s)
    (ht : self.type_ ≠ ShellType.FULLSCREEN) :
    self.Restore env
      = Outcome.ok self
          { env with
            log := env.log ++ [Effect.UpdateShellSurface s.addr self.type_ none 0 0] } ∧
    self.Maximize env
      = Outcome.ok self { env with log := env.log ++ [Effect.Maximize s.addr] } := by
  simp [WaylandWindow.Restore, WaylandWindow.Maximize, ht, callShell_some _ _ _ s hs,
    World.emit]

/-- C12 at the sample popup window: `Restore()` re-issues mode Popup, `Maximize()`
asks for maximize. -/
theorem Restore_Maximize_requests_witness :
    samplePopup.shell_surface_ = some sampleShell ∧
    samplePopup.type_ ≠ ShellType.FULLSCREEN ∧
    samplePopup.Restore sampleWorld
      = Outcome.ok samplePopup
          { sampleWorld with
            log := sampleWorld.log ++
              [Effect.UpdateShellSurface sampleShell.addr samplePopup.type_ none 0 0] } ∧
    samplePopup.Maximize sampleWorld
      = Outcome.ok samplePopup
          { sampleWorld with log := sampleWorld.log ++ [Effect.Maximize sampleShell.addr] } :=
  ⟨rfl, by decide,
    Restore_Maximize_requests samplePopup sampleWorld sampleShell rfl (by decide)⟩

/-- C13: on a window whose mode is Fullscreen, any sequence made of `Maximize()`,
`Restore()` and `SetFullscreen()`, in any order and of any length, returns with the
window and the world exactly as they were: no request reaches the shell surface and
no field changes. -/
theorem Fullscreen_terminal (self : WaylandWindow) (env : World) (ops : List Op)
    (ht : self.type_ = ShellType.FULLSCREEN)
    (hops : ∀ op ∈ ops, op = Op.Maximize ∨ op = Op.Restore ∨ op = Op.SetFullscreen) :
    runAll ops self env = Outcome.ok self env := by
  induction ops with
  | nil => rfl
  | cons op rest ih =>
    have hrest : ∀ o ∈ rest, o = Op.Maximize ∨ o = Op.Restore ∨ o = Op.SetFullscreen :=
      fun o ho => hops o (List.mem_cons_of_mem op ho)
    have hstep : op.run self env = Outcome.ok self env := by
      rcases hops op (List.mem_cons_self op rest) with h | h | h
      · simp [h, Op.run, WaylandWindow.Maximize, ht]
      · simp [h, Op.run, WaylandWindow.Restore, ht]
      · simp [h, Op.run, WaylandWindow.SetFullscreen, ht]
    simp only [runAll, hstep, Outcome.andThen]
    exact ih hrest

/-- C13 at the window left by `SetShellAttributes(FULLSCREEN)` on a fresh window, for
a mixed sequence of five state requests. -/
theorem Fullscreen_terminal_witness :
    (WaylandWindow.ctor 7).SetShellAttributes bareWorld ShellType.FULLSCREEN
      = Outcome.ok sampleFullscreen
          { bareWorld with
            next_ := 2
            log := [Effect.NewShellSurface sampleShell,
                    Effect.SetUserData 1 (some 7),
                    Effect.UpdateShellSurface 0 ShellType.FULLSCREEN none 0 0] } ∧
    sampleFullscreen.type_ = ShellType.FULLSCREEN ∧
    runAll [Op.Maximize, Op.Restore, Op.SetFullscreen, Op.Restore, Op.Maximize]
        sampleFullscreen sampleWorld
      = Outcome.ok sampleFullscreen sampleWorld :=
  ⟨rfl, rfl,
    Fullscreen_terminal sampleFullscreen sampleWorld
      [Op.Maximize, Op.Restore, Op.SetFullscreen, Op.Restore, Op.Maximize] rfl
      (by decide)⟩

/-- C14: `Minimize()` returns for every window, with or without a shell surface, with
every field of the window unchanged, the display and the allocation counter unchanged,
and the log grown by the "not implemented" report alone: no request goes to the shell
surface, the rendering context or the display. -/
theorem Minimize_reports_only (self : WaylandWindow) (env : World) :
    self.Minimize env
      = Outcome.ok self
          { display := env.display, next_ := env.next_
            log := env.log ++ [Effect.NotImplemented] } := by
  simp [WaylandWindow.Minimize, World.emit]

/-! ## Popup requests -/

/-- C15, the code at the failing input: a fresh window made a popup through the popup
form with a non-null parent, then restored, has issued a second popup request whose
parent is null; and the single-argument `SetShellAttributes(POPUP)` on a fresh window
issues a popup request whose parent is null as well. -/
theorem Restore_popup_parentless_request :
    runAll [Op.SetShellAttributesPopup ShellType.POPUP (some sampleParent) 3 4, Op.Restore]
        (WaylandWindow.ctor 7) sampleWorld
      = Outcome.ok
          { WaylandWindow.ctor 7 with
            shell_surface_ := some { addr := 2, surface_ := 3, window := 7 }
            type_ := ShellType.POPUP }
          { display :=
              { primary_input_ := some { grab_window_handle_ := 7, grab_button_ := 0 } }
            next_ := 4
            log := [Effect.NewShellSurface { addr := 2, surface_ := 3, window := 7 },
                    Effect.SetUserData 3 (some 7),
                    Effect.SetGrabWindowHandle 7 0,
                    Effect.UpdateShellSurface 2 ShellType.POPUP (some sampleParent) 3 4,
                    Effect.UpdateShellSurface 2 ShellType.POPUP none 0 0] } ∧
    runAll [Op.SetShellAttributes ShellType.POPUP] (WaylandWindow.ctor 7) bareWorld
      = Outcome.ok
          { WaylandWindow.ctor 7 with
            shell_surface_ := some { addr := 0, surface_ := 1, window := 7 }
            type_ := ShellType.POPUP }
          { bareWorld with
            next_ := 2
            log := [Effect.NewShellSurface { addr := 0, surface_ := 1, window := 7 },
                    Effect.SetUserData 1 (some 7),
                    Effect.UpdateShellSurface 0 ShellType.POPUP none 0 0] } := by
  refine ⟨rfl, rfl⟩

/-! ## Ownership -/

theorem Kept_refl (self : WaylandWindow) : self.Kept self :=
  ⟨fun _ h => h, fun egl h => ⟨egl, h, rfl, rfl⟩⟩

theorem Kept_trans (a b c : WaylandWindow) (hab : a.Kept b) (hbc : b.Kept c) : a.Kept c := by
  refine ⟨fun s h => hbc.1 s (hab.1 s h), ?_⟩
  intro egl h
  obtain ⟨egl1, h1, ha, hsf⟩ := hab.2 egl h
  obtain ⟨egl2, h2, ha2, hsf2⟩ := hbc.2 egl1 h1
  exact ⟨egl2, h2, ha2.trans ha, hsf2.trans hsf⟩

theorem Kept_of_fields (self self1 : WaylandWindow)
    (hs : ∀ s, self.shell_surface_ = some s → self1.shell_surface_ = some s)
    (hw : self1.window_ = self.window_) : self.Kept self1 :=
  ⟨hs, fun egl h => ⟨egl, hw.trans h, rfl, rfl⟩⟩

theorem SetShellAttributes_kept (self : WaylandWindow) (env : World) (type : ShellType)
    (self1 : WaylandWindow) (env1 : World)
    (h : self.SetShellAttributes env type = Outcome.ok self1 env1) : self.Kept self1 := by
  unfold WaylandWindow.SetShellAttributes at h
  by_cases ht : self.type_ = type
  · simp [ht] at h
    rw [← h.1]
    exact Kept_refl self
  · cases hs : self.shell_surface_ with
    | none =>
      simp [ht, hs, World.newShellSurface, WaylandWindow.setUserData, WaylandWindow.GetSurface,
        Outcome.andThen, WaylandWindow.callShell] at h
      rw [← h.1]
      exact Kept_of_fields _ _ (by simp [hs]) rfl
    | some s =>
      simp [ht, hs, Outcome.andThen, WaylandWindow.callShell] at h
      rw [← h.1]
      exact Kept_of_fields _ _ (by simp [hs]) rfl

theorem SetShellAttributesPopup_kept (self : WaylandWindow) (env : World) (type : ShellType)
    (p : Option WaylandShellSurface) (x y : Nat)
    (self1 : WaylandWindow) (env1 : World)
    (h : self.SetShellAttributesPopup env type p x y = Outcome.ok self1 env1) :
    self.Kept self1 := by
  unfold WaylandWindow.SetShellAttributesPopup at h
  by_cases hd : p.isSome = true ∧ type = ShellType.POPUP
  · cases hs : self.shell_surface_ with
    | none =>
      cases hi : env.display.primary_input_ with
      | none =>
        simp [hd, hs, World.newShellSurface, WaylandWindow.setUserData,
          WaylandWindow.GetSurface, Outcome.andThen, WaylandWindow.grabPrimaryInput, hi,
          World.emit] at h
      | some input =>
        simp [hd, hs, World.newShellSurface, WaylandWindow.setUserData,
          WaylandWindow.GetSurface, Outcome.andThen, WaylandWindow.grabPrimaryInput, hi,
          World.emit, WaylandWindow.callShell] at h
        rw [← h.1]
        exact Kept_of_fields _ _ (by simp [hs]) rfl
    | some s =>
      simp [hd, hs, Outcome.andThen, WaylandWindow.callShell] at h
      rw [← h.1]
      exact Kept_of_fields _ _ (by simp [hs]) rfl
  · simp [hd] at h

theorem RealizeAcceleratedWidget_kept (self : WaylandWindow) (env : World)
    (self1 : WaylandWindow) (env1 : World)
    (h : self.RealizeAcceleratedWidget env = Outcome.ok self1 env1) : self.Kept self1 := by
  unfold WaylandWindow.RealizeAcceleratedWidget at h
  cases hs : self.shell_surface_ with
  | some s =>
    cases hw : self.window_ with
    | none =>
      simp [hs, hw, Outcome.andThen] at h
      rw [← h.1]
      exact ⟨by simp [hs], by simp [hw]⟩
    | some egl =>
      simp [hs, hw, Outcome.andThen] at h
      rw [← h.1]
      exact Kept_refl self
  | none =>
    simp only [hs] at h
    cases hm : self.SetShellAttributes
        (env.emit (Effect.LogError "Shell type not set. Setting it to TopLevel"))
        ShellType.TOPLEVEL with
    | fault f w e => simp [hm, Outcome.andThen] at h
    | ok w e =>
      have hk := SetShellAttributes_kept self _ ShellType.TOPLEVEL w e hm
      simp only [hm, Outcome.andThen] at h
      cases hw : w.window_ with
      | some egl =>
        simp [hw] at h
        rw [← h.1]
        exact hk
      | none =>
        cases hws : w.shell_surface_ with
        | none => simp [hw, hws] at h
        | some s1 =>
          simp [hw, hws] at h
          rw [← h.1]
          refine Kept_trans self w _ hk ⟨by simp [hws], by simp [hw]⟩

theorem run_kept (op : Op) (self : WaylandWindow) (env : World)
    (self1 : WaylandWindow) (env1 : World)
    (h : op.run self env = Outcome.ok self1 env1) : self.Kept self1 := by
  cases op with
  | SetShellAttributes type => exact SetShellAttributes_kept self env type self1 env1 h
  | SetShellAttributesPopup type p x y =>
    exact SetShellAttributesPopup_kept self env type p x y self1 env1 h
  | SetWindowTitle title =>
    simp only [Op.run, WaylandWindow.SetWindowTitle] at h
    rw [(callShell_ok self env _ self1 env1 h).1]
    exact Kept_refl self
  | Maximize =>
    simp only [Op.run, WaylandWindow.Maximize] at h
    split at h
    · rw [(callShell_ok self env _ self1 env1 h).1]
      exact Kept_refl self
    · cases h
      exact Kept_refl self
  | Minimize =>
    simp only [Op.run, WaylandWindow.Minimize] at h
    cases h
    exact Kept_refl self
  | Restore =>
    simp only [Op.run, WaylandWindow.Restore] at h
    split at h
    · rw [(callShell_ok self env _ self1 env1 h).1]
      exact Kept_refl self
    · cases h
      exact Kept_refl self
  | SetFullscreen =>
    simp only [Op.run, WaylandWindow.SetFullscreen] at h
    split at h
    · rw [(callShell_ok self env _ self1 env1 h).1]
      exact Kept_refl self
    · cases h
      exact Kept_refl self
  | RealizeAcceleratedWidget => exact RealizeAcceleratedWidget_kept self env self1 env1 h
  | Resize width height =>
    simp only [Op.run, WaylandWindow.Resize] at h
    split at h
    · cases h
      exact Kept_refl self
    · cases hs : self.shell_surface_ with
      | none =>
        simp [hs] at h
        rw [← h.1]
        exact Kept_of_fields _ _ (by simp [hs]) rfl
      | some s =>
        cases hw : self.window_ with
        | none =>
          simp [hs, hw] at h
          rw [← h.1]
          exact Kept_of_fields _ _ (by simp [hs]) (by simp [hw])
        | some egl =>
          simp [hs, hw] at h
          rw [← h.1]
          exact ⟨by simp [hs], by simp [hw]⟩

theorem runAll_kept (ops : List Op) (self : WaylandWindow) (env : World)
    (self1 : WaylandWindow) (env1 : World)
    (h : runAll ops self env = Outcome.ok self1 env1) : self.Kept self1 := by
  induction ops generalizing self env with
  | nil =>
    simp only [runAll] at h
    cases h
    exact Kept_refl _
  | cons op rest ih =>
    simp only [runAll] at h
    cases hm : op.run self env with
    | fault f w e => simp [hm, Outcome.andThen] at h
    | ok w e =>
      simp only [hm, Outcome.andThen] at h
      exact Kept_trans self w self1 (run_kept op self env w e hm) (ih w e h)

theorem reaches_kept (self self1 : WaylandWindow) (h : Reaches self self1) :
    self.Kept self1 := by
  induction h with
  | refl => exact Kept_refl _
  | step op start mid env self1 env1 _ hrun ih =>
    exact Kept_trans start mid self1 ih (run_kept op mid env self1 env1 hrun)

theorem sampleRealized_reachable : Reachable sampleRealized :=
  Reachable.step Op.RealizeAcceleratedWidget (WaylandWindow.ctor 7) bareWorld sampleRealized
    { bareWorld with
      next_ := 3
      log := [Effect.LogError "Shell type not set. Setting it to TopLevel",
              Effect.NewShellSurface sampleShell,
              Effect.SetUserData 1 (some 7),
              Effect.UpdateShellSurface 0 ShellType.TOPLEVEL none 0 0,
              Effect.NewEGLWindow { addr := 2, surface := 1, width := 1, height := 1 }] }
    (Reachable.fresh 7) rfl

/-- C16: in every window state reachable from a fresh window by operations that
returned, a mode other than None implies that a shell surface exists, and an existing
rendering context implies that a shell surface exists.  Whatever further operations
(both forms of `SetShellAttributes`, `SetWindowTitle`, `Maximize`, `Minimize`,
`Restore`, `SetFullscreen`, `RealizeAcceleratedWidget`, `Resize`) return afterwards, a
shell surface that existed is still the same shell surface and a rendering context
that existed is still the same object over the same drawing surface: neither is
replaced or dropped. -/
theorem ownership_invariant (self : WaylandWindow) (hr : Reachable self) :
    (self.type_ ≠ ShellType.None → self.shell_surface_.isSome = true) ∧
    (self.window_.isSome = true → self.shell_surface_.isSome = true) ∧
    ∀ self1, Reaches self self1 →
      (∀ s, self.shell_surface_ = some s → self1.shell_surface_ = some s) ∧
      (∀ egl, self.window_ = some egl →
        ∃ egl1, self1.window_ = some egl1 ∧ egl1.addr = egl.addr ∧
          egl1.surface = egl.surface) := by
  have hb := reachable_bound self hr
  refine ⟨?_, ?_, ?_⟩
  · intro ht
    cases hs : self.shell_surface_ with
    | none => exact absurd (hb hs).1 ht
    | some s => rfl
  · intro hw
    cases hs : self.shell_surface_ with
    | none =>
      rw [(hb hs).2] at hw
      simp at hw
    | some s => rfl
  · intro self1 h
    exact reaches_kept self self1 h

/-- C16 at the sample realized window, followed by `Resize(640, 480)`: shell surface
and rendering context are still the ones created at realization. -/
theorem ownership_invariant_witness :
    Reachable sampleRealized ∧
    sampleRealized.shell_surface_.isSome = true ∧
    Reaches sampleRealized sampleRealizedResized ∧
    sampleRealizedResized.shell_surface_ = some sampleShell ∧
    ∃ egl1, sampleRealizedResized.window_ = some egl1 ∧ egl1.addr = 2 ∧ egl1.surface = 1 := by
  have hstep : Reaches sampleRealized sampleRealizedResized :=
    Reaches.step (Op.Resize 640 480) sampleRealized sampleRealized sampleWorld
      sampleRealizedResized
      { sampleWorld with log := [Effect.ResizeEGLWindow 2 1 640 480, Effect.FlushDisplay] }
      (Reaches.refl sampleRealized) rfl
  have h := ownership_invariant sampleRealized sampleRealized_reachable
  exact ⟨sampleRealized_reachable, h.1 (by decide), hstep,
    (h.2.2 sampleRealizedResized hstep).1 sampleShell rfl,
    (h.2.2 sampleRealizedResized hstep).2
      { addr := 2, surface := 1, width := 1, height := 1 } rfl⟩

/-! ## Destruction without a shell surface -/

/-- C17: destroying a window fails exactly when it has no shell surface.  Without one
the run stops at `GetSurface`, the first step, with nothing logged; in particular this
is so for a freshly constructed window.  With a shell surface the destruction
completes: the user data is cleared, the rendering context deleted if there is one,
the shell surface deleted. -/
theorem dtor_fails_iff_no_shell_surface (self : WaylandWindow) (env : World) :
    (self.shell_surface_ = none → self.dtor env = Destroyed.fault Fault.DCheck env) ∧
    (∀ s, self.shell_surface_ = some s →
      self.dtor env
        = Destroyed.ok
            (((env.emit (Effect.SetUserData s.surface_ none)).deleteEGLWindow
              self.window_).emit (Effect.DeleteShellSurface s.addr))) ∧
    ((∃ f env1, self.dtor env = Destroyed.fault f env1) ↔ self.shell_surface_ = none) ∧
    (∀ handle : Nat,
      (WaylandWindow.ctor handle).dtor env = Destroyed.fault Fault.DCheck env) := by
  have h1 : self.shell_surface_ = none → self.dtor env = Destroyed.fault Fault.DCheck env := by
    intro hs
    simp [WaylandWindow.dtor, WaylandWindow.setUserData, WaylandWindow.GetSurface, hs]
  have h2 : ∀ s, self.shell_surface_ = some s →
      self.dtor env
        = Destroyed.ok
            (((env.emit (Effect.SetUserData s.surface_ none)).deleteEGLWindow
              self.window_).emit (Effect.DeleteShellSurface s.addr)) := by
    intro s hs
    simp [WaylandWindow.dtor, WaylandWindow.setUserData, WaylandWindow.GetSurface, hs,
      World.deleteShellSurface]
  refine ⟨h1, h2, ?_, ?_⟩
  · constructor
    · rintro ⟨f, env1, hf⟩
      cases hs : self.shell_surface_ with
      | none => rfl
      | some s =>
        rw [h2 s hs] at hf
        cases hf
    · intro hs
      exact ⟨Fault.DCheck, env, h1 hs⟩
  · intro handle
    simp [WaylandWindow.dtor, WaylandWindow.setUserData, WaylandWindow.GetSurface,
      WaylandWindow.ctor]

/-- C17 on a fresh window (fails) and on the sample top-level window (completes). -/
theorem dtor_fails_iff_no_shell_surface_witness :
    (WaylandWindow.ctor 7).shell_surface_ = none ∧
    (WaylandWindow.ctor 7).dtor bareWorld = Destroyed.fault Fault.DCheck bareWorld ∧
    sampleWindow.shell_surface_ = some sampleShell ∧
    sampleWindow.dtor sampleWorld
      = Destroyed.ok
          (((sampleWorld.emit (Effect.SetUserData sampleShell.surface_ none)).deleteEGLWindow
            sampleWindow.window_).emit (Effect.DeleteShellSurface sampleShell.addr)) :=
  ⟨rfl, (dtor_fails_iff_no_shell_surface (WaylandWindow.ctor 7) bareWorld).1 rfl, rfl,
    (dtor_fails_iff_no_shell_surface sampleWindow sampleWorld).2.1 sampleShell rfl⟩

/-! ## Realization twice -/

/-- C18: in every reachable window state `RealizeAcceleratedWidget()` is idempotent.
The first call returns some window and world; a second call right after it returns
exactly that window and that world, so it creates no shell surface and no rendering
context and issues no request; and in any other world, too, the second call leaves
window and world as they are. -/
theorem RealizeAcceleratedWidget_idempotent (self : WaylandWindow) (env : World)
    (hr : Reachable self) :
    ∃ self1 env1, self.RealizeAcceleratedWidget env = Outcome.ok self1 env1 ∧
      (self.RealizeAcceleratedWidget env).andThen
          (fun w e => w.RealizeAcceleratedWidget e) = Outcome.ok self1 env1 ∧
      ∀ env2, self1.RealizeAcceleratedWidget env2 = Outcome.ok self1 env2 := by
  have hb := reachable_bound self hr
  have key : ∀ self1 env1, self.RealizeAcceleratedWidget env = Outcome.ok self1 env1 →
      (∃ s egl, self1.shell_surface_ = some s ∧ self1.window_ = some egl) →
      ∃ self1 env1, self.RealizeAcceleratedWidget env = Outcome.ok self1 env1 ∧
        (self.RealizeAcceleratedWidget env).andThen
            (fun w e => w.RealizeAcceleratedWidget e) = Outcome.ok self1 env1 ∧
        ∀ env2, self1.RealizeAcceleratedWidget env2 = Outcome.ok self1 env2 := by
    intro self1 env1 h hboth
    obtain ⟨s, egl, hs1, hw1⟩ := hboth
    have hb1 : self1.Bound := by
      intro hn
      rw [hs1] at hn
      cases hn
    have again : ∀ env2, self1.RealizeAcceleratedWidget env2 = Outcome.ok self1 env2 :=
      fun env2 => (RealizeAcceleratedWidget_shape self1 env2 hb1).2.2 s egl hs1 hw1
    refine ⟨self1, env1, h, ?_, again⟩
    rw [h]
    exact again env1
  obtain ⟨h1, h2, h3⟩ := RealizeAcceleratedWidget_shape self env hb
  cases hs : self.shell_surface_ with
  | none => exact key _ _ (h1 hs) ⟨_, _, rfl, rfl⟩
  | some s =>
    cases hw : self.window_ with
    | none => exact key _ _ (h2 s hs hw) ⟨s, _, hs, rfl⟩
    | some egl => exact key _ _ (h3 s egl hs hw) ⟨s, egl, hs, hw⟩

/-- C18 at the window left by `Resize(640, 480)` on a fresh window. -/
theorem RealizeAcceleratedWidget_idempotent_witness :
    Reachable sampleResized ∧
    ∃ self1 env1, sampleResized.RealizeAcceleratedWidget bareWorld = Outcome.ok self1 env1 ∧
      (sampleResized.RealizeAcceleratedWidget bareWorld).andThen
          (fun w e => w.RealizeAcceleratedWidget e) = Outcome.ok self1 env1 ∧
      ∀ env2, self1.RealizeAcceleratedWidget env2 = Outcome.ok self1 env2 :=
  ⟨sampleResized_reachable,
    RealizeAcceleratedWidget_idempotent sampleResized bareWorld sampleResized_reachable⟩

end ozonewayland
